import Mathlib

/-!
Shallow embedding of `src/seo_metadata_scraper.py` (class `WebsiteScraper`).

The parsed HTML document handed to the scraper by BeautifulSoup is modelled
as a forest of nodes (`Doc`).  The library facilities the scraper calls are
modelled only as far as the scraper uses them:

* `soupFindAll` / `soupFind` / `soupFindAttr` model `soup.find_all(tag)` and
  `soup.find(tag, attrs={...})`: a preorder (document-order) traversal of the
  tree, filtered by tag name and, for the meta lookups, by exact attribute
  value; `find` takes the first match.
* `Node.getTextStrip` models `tag.get_text(strip=True)`: the descendant
  strings in document order, each stripped of Python whitespace, empty
  results dropped, concatenated.
* `Node.pyString` models the BeautifulSoup `Tag.string` property: the single
  child if it is a string, recursing through a single element child,
  and `None` (here `none`) whenever the element has zero or several children.
* `get_domain` models `urlparse(url).netloc` from CPython 3.11
  `urllib.parse` (the interpreter this repository runs on): leading
  C0-control/space characters are removed, tab/CR/LF are deleted, a valid
  scheme is dropped, and when the remainder starts with `//` the authority
  runs up to the first of `/?#`; a mismatched square bracket raises
  `ValueError("Invalid IPv6 URL")`, a matched bracket pair must hold a
  valid IPv6 or IPvFuture host (`_check_bracketed_host`, mirroring the
  `ipaddress` parser), and `_checknetloc` rejects netlocs whose characters
  NFKC-normalize onto URL delimiters — for the `/?#`-free netlocs
  `_splitnetloc` produces this is exactly membership in `badNfkcChars`.
  Raises are modelled as `Except.error`.
* Python `str.strip()` is modelled by `pyStrip`, whose whitespace set
  includes the no-break space U+00A0 (as in CPython).
* The `or` fallbacks on optional strings (lines 99-102 of the source) are
  modelled by `pyOrStr`, which follows Python truthiness: `None` and the
  empty string both fall through to the right operand.
* The pandas steps of `scrape_urls` are modelled by `Table`, `toRow`,
  the column selection in `scrape_urls` (raising a `KeyError` when a
  requested column does not exist, as `df[column_order]` does on the empty
  frame built from an empty result list) and `computeSummary` (lines
  174-192 of the source).
* The random inter-request delay (`time.sleep(random.uniform(1, 3))`) has no
  influence on any computed value; it is threaded through as an explicit
  `delays` argument so that independence from it can be stated.

Exception propagation is explicit: `Except String` carries the message of a
raised Python exception.  `scrape_metadata` mirrors the try/except structure
of the source: the failure handler itself calls `get_domain`, so an
exception raised there escapes the handler.
-/

/-- Node of a parsed HTML document: a text node or an element with a tag
name, an attribute list and child nodes. -/
inductive Node where
  | text (s : String)
  | elem (tag : String) (attrs : List (String × String)) (children : List Node)

/-- A parsed document is a forest of top-level nodes. -/
abbrev Doc := List Node

mutual

/-- Document-order (preorder) listing of a node and all its descendants. -/
def Node.flatten : Node → List Node
  | Node.text s => [Node.text s]
  | Node.elem t a cs => Node.elem t a cs :: flattenList cs

/-- Document-order listing of all nodes of a forest. -/
def flattenList : List Node → List Node
  | [] => []
  | n :: ns => Node.flatten n ++ flattenList ns

end

mutual

/-- Descendant strings of a node in document order (the node itself when it
is a text node), modelling the string iteration of `get_text`. -/
def Node.textStrings : Node → List String
  | Node.text s => [s]
  | Node.elem _ _ cs => textStringsList cs

/-- Descendant strings of a forest in document order. -/
def textStringsList : List Node → List String
  | [] => []
  | n :: ns => Node.textStrings n ++ textStringsList ns

end

/-- Python `str` whitespace predicate (the characters `str.strip()` removes):
ASCII whitespace, the C1 next-line character, the no-break space U+00A0 and
the Unicode space separators. -/
def pyIsSpace (c : Char) : Bool :=
  c == ' ' || c == '\t' || c == '\n' || c == '\r' || c == '\u000B' || c == '\u000C' ||
  (0x1C ≤ c.toNat && c.toNat ≤ 0x1F) || c == '\u0085' || c == '\u00A0' || c == '\u1680' ||
  (0x2000 ≤ c.toNat && c.toNat ≤ 0x200A) || c == '\u2028' || c == '\u2029' ||
  c == '\u202F' || c == '\u205F' || c == '\u3000'

/-- Python `str.strip()`: remove leading and trailing whitespace. -/
def pyStrip (s : String) : String :=
  ⟨((s.data.dropWhile pyIsSpace).reverse.dropWhile pyIsSpace).reverse⟩

/-- Python `s.replace("\xa0", " ")`: the pattern and the replacement are
single characters, so the call replaces every no-break space by a space. -/
def replaceNbsp (s : String) : String :=
  ⟨s.data.map (fun c => if c == '\u00A0' then ' ' else c)⟩

/-- Equality of `Except` results is decidable componentwise. -/
instance instDecEqExcept {ε α : Type} [DecidableEq ε] [DecidableEq α] :
    DecidableEq (Except ε α)
  | Except.ok a, Except.ok b =>
      if h : a = b then isTrue (by rw [h]) else isFalse (by intro hc; cases hc; exact h rfl)
  | Except.error a, Except.error b =>
      if h : a = b then isTrue (by rw [h]) else isFalse (by intro hc; cases hc; exact h rfl)
  | Except.ok _, Except.error _ => isFalse (by intro hc; cases hc)
  | Except.error _, Except.ok _ => isFalse (by intro hc; cases hc)

/-- The tag name of a node (`none` for a text node). -/
def nodeTag : Node → Option String
  | Node.text _ => none
  | Node.elem t _ _ => some t

/-- The attribute list of a node. -/
def nodeAttrs : Node → List (String × String)
  | Node.text _ => []
  | Node.elem _ a _ => a

/-- Model of `tag.get(key, default)`: the attribute value, or the default. -/
def getAttrD (n : Node) (key dflt : String) : String :=
  ((nodeAttrs n).lookup key).getD dflt

/-- Tag-name test used by `find_all`. -/
def isTagged (tag : String) (n : Node) : Bool :=
  nodeTag n == some tag

/-- Model of `soup.find_all(tag)`: every element with the tag, in document
order. -/
def soupFindAll (doc : Doc) (tag : String) : List Node :=
  (flattenList doc).filter (isTagged tag)

/-- Model of `soup.find(tag)` (and of the `soup.title` shortcut): the first
element with the tag in document order, if any. -/
def soupFind (doc : Doc) (tag : String) : Option Node :=
  (soupFindAll doc tag).head?

/-- Element test for `soup.find("meta", attrs={attr: val})`. -/
def metaAttrMatch (tag attr val : String) (n : Node) : Bool :=
  isTagged tag n && ((nodeAttrs n).lookup attr == some val)

/-- Model of `soup.find(tag, attrs={attr: val})`: first element in document
order whose tag and attribute both match. -/
def soupFindAttr (doc : Doc) (tag attr val : String) : Option Node :=
  ((flattenList doc).filter (metaAttrMatch tag attr val)).head?

/-- Model of the BeautifulSoup `Tag.string` property: the single child when
it is a string, recursing through a lone element child; `none` when the
element has zero children or more than one. -/
def Node.pyString : Node → Option String
  | Node.text s => some s
  | Node.elem _ _ [c] => Node.pyString c
  | Node.elem _ _ _ => none

/-- Model of `tag.get_text(strip=True)`: the descendant strings in document
order, each stripped, empty results skipped, concatenated. -/
def Node.getTextStrip (n : Node) : String :=
  String.join (((Node.textStrings n).map pyStrip).filter (fun t => !t.isEmpty))

/-- Characters allowed in a URL scheme by `urllib.parse` (letters, digits
and `+`, `-`, `.`). -/
def scheme_chars : List Char :=
  ("abcdefghijklmnopqrstuvwxyzABCDEFGHIJKLMNOPQRSTUVWXYZ0123456789+-.").data

/-- Scheme removal step of `urllib.parse.urlsplit`: when the text up to the
first colon is a well-formed scheme (non-empty, starting with an ASCII
letter, all characters scheme characters), drop it together with the colon. -/
def dropSchemeL (cs : List Char) : List Char :=
  match cs.findIdx? (fun c => c == ':') with
  | none => cs
  | some i =>
      if 0 < i ∧ (cs.getD 0 ' ').isAlpha = true ∧ ∀ c ∈ cs.take i, c ∈ scheme_chars then
        cs.drop (i + 1)
      else cs

/-- Cleanup and scheme-removal steps of `urllib.parse.urlsplit`: drop
leading C0-control/space characters (WHATWG stripping), delete every tab,
CR and LF, then remove a well-formed scheme. -/
def urlAfterScheme (url : String) : List Char :=
  dropSchemeL ((url.data.dropWhile (fun c => c.toNat ≤ 0x20)).filter
    (fun c => !(c == '\t' || c == '\r' || c == '\n')))

/-- Predicate for characters that do not end the netloc (`_splitnetloc`
stops at the first of `/`, `?`, `#`). -/
def notNetlocEnd (c : Char) : Bool :=
  !(c == '/' || c == '?' || c == '#')

/-- ASCII test, `str.isascii` on one character. -/
def pyIsAscii (c : Char) : Bool := decide (c.toNat ≤ 127)

/-- ASCII hex digit (`ipaddress._BaseV6._HEX_DIGITS`, the IPvFuture
character class). -/
def isHexDigitPy (c : Char) : Bool :=
  c.isDigit || ('a' ≤ c && c ≤ 'f') || ('A' ≤ c && c ≤ 'F')

/-- Decimal value of an ASCII digit list. -/
def decimalVal (p : List Char) : Nat :=
  p.foldl (fun n c => n * 10 + (c.toNat - 48)) 0

/-- Model of `ipaddress._BaseV4._parse_octet` succeeding: a non-empty run
of at most 3 ASCII decimal digits, no leading zero (except `0` itself),
value at most 255. -/
def octetValid (p : List Char) : Bool :=
  !p.isEmpty && p.all Char.isDigit && decide (p.length ≤ 3) &&
    (p == ['0'] || p.headD '0' != '0') && decide (decimalVal p ≤ 255)

/-- Model of a successful `IPv4Address` string parse: exactly four
dot-separated valid octets (a `/` or `%` fails the digit test anyway). -/
def ipv4Valid (cs : List Char) : Bool :=
  decide ((cs.splitOn '.').length = 4) && (cs.splitOn '.').all octetValid

/-- Model of `ipaddress._BaseV6._parse_hextet` succeeding: 1 to 4 ASCII
hex digits (the empty hextet fails `int("", 16)`). -/
def hextetValid (p : List Char) : Bool :=
  !p.isEmpty && decide (p.length ≤ 4) && p.all isHexDigitPy

/-- Validity core of `ipaddress._BaseV6._ip_int_from_string` after the
IPv4-suffix rewrite: at most 9 parts; at most one empty interior part (the
`::` skip); an empty first or last part only next to the skip (`^:` needs
`^::`, `:$` needs `::$`); with a skip at least one hextet group skipped
(`parts_hi + parts_lo` at most 7), otherwise exactly 8 parts; every
non-skip part a valid hextet. -/
def ipv6PartsValid (parts : List (List Char)) : Bool :=
  if decide (9 < parts.length) then false
  else
    let n := parts.length
    let interior := (parts.drop 1).dropLast
    let empties := (interior.filter List.isEmpty).length
    if decide (2 ≤ empties) then false
    else if empties == 1 then
      let skip := 1 + interior.findIdx List.isEmpty
      let headEmpty := (parts.headD ['x']).isEmpty
      let lastEmpty := (parts.getLastD ['x']).isEmpty
      let hi := if headEmpty then 0 else skip
      let lo := n - skip - 1 - (if lastEmpty then 1 else 0)
      (!headEmpty || skip == 1) && (!lastEmpty || skip == n - 2) &&
        decide (hi + lo ≤ 7) &&
        (parts.take hi).all hextetValid && (parts.drop (n - lo)).all hextetValid
    else
      decide (n = 8) && !(parts.headD ['x']).isEmpty &&
        !(parts.getLastD ['x']).isEmpty && parts.all hextetValid

/-- Model of `IPv6Address._split_scope_id`: the part after the first `%`
must be non-empty and `%`-free; `none` models the raise. -/
def splitScope (host : List Char) : Option (List Char) :=
  if host.contains '%' then
    let scope := (host.dropWhile (fun c => c != '%')).drop 1
    if scope.isEmpty || scope.contains '%' then none
    else some (host.takeWhile (fun c => c != '%'))
  else some host

/-- Model of `_BaseV6._ip_int_from_string` succeeding (validity only): a
non-empty string with at least 2 colons; a last part holding a `.` must be
a valid IPv4 address and is rewritten into two hextets; then the part
analysis of `ipv6PartsValid`. -/
def ipv6AddrValid (cs : List Char) : Bool :=
  if cs.isEmpty then false
  else
    let parts := cs.splitOn ':'
    if decide (parts.length < 3) then false
    else
      let lastP := parts.getLastD []
      if lastP.contains '.' then
        ipv4Valid lastP && ipv6PartsValid (parts.dropLast ++ [['0'], ['0']])
      else ipv6PartsValid parts

/-- Model of a successful `IPv6Address` construction: no `/`, a
well-formed optional scope id, and a valid address body. -/
def ipv6Valid (host : List Char) : Bool :=
  if host.contains '/' then false
  else
    match splitScope host with
    | none => false
    | some addr => ipv6AddrValid addr

/-- Model of the IPvFuture regex of `_check_bracketed_host`,
`v[a-fA-F0-9]+\..+` anchored at both ends (`.` excludes the newline). -/
def ipvFutureValid (host : List Char) : Bool :=
  match host with
  | 'v' :: rest =>
      !(rest.takeWhile isHexDigitPy).isEmpty &&
        (match rest.dropWhile isHexDigitPy with
         | '.' :: t => !t.isEmpty && t.all (fun c => c != '\n')
         | _ => false)
  | _ => false

/-- The bracketed host of a netloc:
`netloc.partition("[")[2].partition("]")[0]`. -/
def bracketedHost (netloc : List Char) : List Char :=
  ((netloc.dropWhile (fun c => c != '[')).drop 1).takeWhile (fun c => c != ']')

/-- Model of `urllib.parse._check_bracketed_host` (Python 3.11+): a host
starting with `v` must match the IPvFuture regex; otherwise it must parse
as an IP address and not be IPv4.  `none` models a pass, `some msg` a
`ValueError` (the messages of the several raise sites are simplified). -/
def checkBracketedHost (host : List Char) : Option String :=
  match host with
  | 'v' :: _ =>
      if ipvFutureValid host then none
      else some "IPvFuture address is invalid"
  | _ =>
      if ipv6Valid host then none
      else if ipv4Valid host then some "An IPv4 address cannot be in brackets"
      else some "bracketed host does not appear to be an IPv4 or IPv6 address"

/-- The characters whose NFKC normalization contains one of the URL
delimiters `/?#@:` (Unicode 14.0.0, the data CPython 3.11 ships).  For a
netloc produced by `_splitnetloc` — which never contains `/`, `?` or `#`,
while `@` and `:` are removed before the check — `_checknetloc` raises
exactly when a character of this list is present: the delimiters are
ASCII, appear in an NFKC image only through the compatibility
decomposition of a single character, and are never consumed by canonical
composition. -/
def badNfkcChars : List Char :=
  ['\u2047', '\u2048', '\u2049', '\u2100', '\u2101', '\u2105', '\u2106',
   '\u2A74', '\uFE13', '\uFE16', '\uFE55', '\uFE56', '\uFE5F', '\uFE6B',
   '\uFF03', '\uFF0F', '\uFF1A', '\uFF1F', '\uFF20']

/-- Model of `urllib.parse._checknetloc`: an empty or all-ASCII netloc
passes immediately; otherwise the netloc minus `@:#?` must not NFKC-map
onto URL delimiters, i.e. must avoid `badNfkcChars`.  `true` is a pass. -/
def checkNetloc (netloc : List Char) : Bool :=
  if netloc.all pyIsAscii then true
  else
    (netloc.filter (fun c => !(c == '@' || c == ':' || c == '#' || c == '?'))).all
      (fun c => !badNfkcChars.contains c)

/-- Message of the `ValueError` raised by `_checknetloc` (the quoted
netloc is omitted). -/
def nfkcErrMsg : String :=
  "netloc contains invalid characters under NFKC normalization"

/-- The netloc validations of `urlsplit` in source order: mismatched
square brackets raise `ValueError("Invalid IPv6 URL")`; a matched bracket
pair has its content checked by `_check_bracketed_host`; finally
`_checknetloc` runs. -/
def netlocChecks (netloc : List Char) : Except String String :=
  if ('[' ∈ netloc ∧ ']' ∉ netloc) ∨ (']' ∈ netloc ∧ '[' ∉ netloc) then
    Except.error "Invalid IPv6 URL"
  else
    match (if '[' ∈ netloc ∧ ']' ∈ netloc then checkBracketedHost (bracketedHost netloc)
           else none) with
    | some msg => Except.error msg
    | none =>
        if checkNetloc netloc then Except.ok ⟨netloc⟩
        else Except.error nfkcErrMsg

/-- Model of `WebsiteScraper.get_domain`, i.e. of `urlparse(url).netloc`
(CPython 3.11 `urllib.parse.urlsplit`, the version this repository runs
on): after cleanup and scheme removal, a remainder starting with `//` has
its netloc run to the first of `/`, `?`, `#` and pass the bracket and
NFKC validations of `netlocChecks`; without a `//` the netloc is empty
(`_checknetloc` passes trivially on it). -/
def get_domain (url : String) : Except String String :=
  match urlAfterScheme url with
  | '/' :: '/' :: rest => netlocChecks (rest.takeWhile notNetlocEnd)
  | _ => Except.ok ""

/-- Result of `WebsiteScraper.get_meta_tags`: the four optional meta
values, `none` when the meta element is missing. -/
structure MetaTags where
  meta_title : Option String
  meta_description : Option String
  og_title : Option String
  og_description : Option String
deriving DecidableEq, Repr

/-- One lookup of `get_meta_tags`: find the first matching meta element; if
present, take its `content` attribute (defaulting to the empty string) and
strip it — note that a present element with a missing or empty `content`
yields `some ""`, not `none`. -/
def metaLookup (doc : Doc) (attr val : String) : Option String :=
  match soupFindAttr doc "meta" attr val with
  | none => none
  | some nd => some (pyStrip (getAttrD nd "content" ""))

/-- Model of `WebsiteScraper.get_meta_tags` (source lines 41-69). -/
def get_meta_tags (doc : Doc) : MetaTags :=
  { meta_title := metaLookup doc "name" "title"
  , meta_description := metaLookup doc "name" "description"
  , og_title := metaLookup doc "property" "og:title"
  , og_description := metaLookup doc "property" "og:description" }

/-- Tag name of heading level `level`, e.g. `"h1"`. -/
def hTag (level : Nat) : String := "h" ++ toString level

/-- Model of `WebsiteScraper.get_all_headings` (source lines 32-39): for
each level 1..6, in that key order, the `get_text(strip=True)` of every
`h{level}` element in document order. -/
def get_all_headings (doc : Doc) : List (String × List String) :=
  (List.range' 1 6).map (fun level =>
    (hTag level, (soupFindAll doc (hTag level)).map Node.getTextStrip))

/-- The heading list stored under `h{level}` in the headings mapping. -/
def headingsFor (headings : List (String × List String)) (level : Nat) : List String :=
  (headings.lookup (hTag level)).getD []

/-- Python `a or b` on optional strings: a `None` or empty left operand
falls through to the right operand. -/
def pyOrStr : Option String → Option String → Option String
  | some s, b => if s.isEmpty then b else some s
  | none, b => b

/-- The `h{n}_text` computation of source lines 111-115: each heading text
has no-break spaces replaced by spaces and is stripped again, and the
results are joined with `" | "`; the empty list gives the empty string. -/
def headingTextJoin (hs : List String) : String :=
  if hs.isEmpty then ""
  else String.intercalate " | " (hs.map (fun h => pyStrip (replaceNbsp h)))

/-- Message of the `AttributeError` raised by
`soup.title.string.replace(...)` when `string` is `None`. -/
def attrErrMsg : String :=
  "AttributeError: NoneType object has no attribute replace"

/-- The `page_title` computation of source lines 94-98:
`soup.title.string.replace("\xa0", " ").strip() if soup.title else None`.
When the title element exists but its `string` is `None`, the attribute
access on `None` raises. -/
def computePageTitle (doc : Doc) : Except String (Option String) :=
  match soupFind doc "title" with
  | none => Except.ok none
  | some t =>
      match Node.pyString t with
      | none => Except.error attrErrMsg
      | some s => Except.ok (some (pyStrip (replaceNbsp s)))

/-- One output record of the scraper: the 20 entries of the metadata dict. -/
structure Record where
  url : String
  domain : String
  page_title : Option String
  meta_title : Option String
  meta_description : Option String
  og_title : Option String
  og_description : Option String
  error : Option String
  h1_count : Nat
  h1_text : String
  h2_count : Nat
  h2_text : String
  h3_count : Nat
  h3_text : String
  h4_count : Nat
  h4_text : String
  h5_count : Nat
  h5_text : String
  h6_count : Nat
  h6_text : String
deriving DecidableEq, Repr

/-- Level-indexed view of the `h{n}_count` fields. -/
def Record.hCount (r : Record) : Nat → Nat
  | 1 => r.h1_count
  | 2 => r.h2_count
  | 3 => r.h3_count
  | 4 => r.h4_count
  | 5 => r.h5_count
  | 6 => r.h6_count
  | _ => 0

/-- Level-indexed view of the `h{n}_text` fields. -/
def Record.hText (r : Record) : Nat → String
  | 1 => r.h1_text
  | 2 => r.h2_text
  | 3 => r.h3_text
  | 4 => r.h4_text
  | 5 => r.h5_text
  | 6 => r.h6_text
  | _ => ""

/-- The metadata dict built at source lines 91-115 for a successful
scrape: headings from `get_all_headings`, meta fields from `get_meta_tags`
with the Python `or` fallback to the OpenGraph values, `error` set to
`None`, and for each level the heading count and the joined heading text. -/
def successRecord (url dom : String) (pt : Option String) (doc : Doc) : Record :=
  { url := url
  , domain := dom
  , page_title := pt
  , meta_title := pyOrStr (get_meta_tags doc).meta_title (get_meta_tags doc).og_title
  , meta_description :=
      pyOrStr (get_meta_tags doc).meta_description (get_meta_tags doc).og_description
  , og_title := (get_meta_tags doc).og_title
  , og_description := (get_meta_tags doc).og_description
  , error := none
  , h1_count := (headingsFor (get_all_headings doc) 1).length
  , h1_text := headingTextJoin (headingsFor (get_all_headings doc) 1)
  , h2_count := (headingsFor (get_all_headings doc) 2).length
  , h2_text := headingTextJoin (headingsFor (get_all_headings doc) 2)
  , h3_count := (headingsFor (get_all_headings doc) 3).length
  , h3_text := headingTextJoin (headingsFor (get_all_headings doc) 3)
  , h4_count := (headingsFor (get_all_headings doc) 4).length
  , h4_text := headingTextJoin (headingsFor (get_all_headings doc) 4)
  , h5_count := (headingsFor (get_all_headings doc) 5).length
  , h5_text := headingTextJoin (headingsFor (get_all_headings doc) 5)
  , h6_count := (headingsFor (get_all_headings doc) 6).length
  , h6_text := headingTextJoin (headingsFor (get_all_headings doc) 6) }

/-- Body of the `try` block of `scrape_metadata` after a successful fetch
(source lines 84-117): `get_domain` (line 93) is evaluated first inside
the dict literal, then the `page_title` expression (lines 94-98); either
can raise, aborting the dict construction. -/
def buildMetadata (url : String) (doc : Doc) : Except String Record :=
  match get_domain url with
  | Except.error e => Except.error e
  | Except.ok dom =>
      match computePageTitle doc with
      | Except.error e => Except.error e
      | Except.ok pt => Except.ok (successRecord url dom pt doc)

/-- The record built by the `except` handler of `scrape_metadata` (source
lines 122-137): domain still computed, every optional field absent, every
heading count 0 and text empty, `error` carrying the exception message. -/
def failRecord (url dom msg : String) : Record :=
  { url := url
  , domain := dom
  , page_title := none
  , meta_title := none
  , meta_description := none
  , og_title := none
  , og_description := none
  , error := some msg
  , h1_count := 0, h1_text := ""
  , h2_count := 0, h2_text := ""
  , h3_count := 0, h3_text := ""
  , h4_count := 0, h4_text := ""
  , h5_count := 0, h5_text := ""
  , h6_count := 0, h6_text := "" }

/-- Outcome of the fetch-and-parse step for one URL: a parsed document, or
the message of the exception raised by `requests.get` /
`raise_for_status` (decoding uses `errors="replace"` and `html.parser`
accepts any input, so neither of those raises). -/
inductive FetchOutcome where
  | success (doc : Doc)
  | failure (msg : String)

/-- Result of the `try` body of `scrape_metadata` (source lines 73-117): a
failed fetch re-raises the exception message, a successful fetch builds the
metadata dict (which can itself raise). -/
def tryScrape (url : String) (outcome : FetchOutcome) : Except String Record :=
  match outcome with
  | FetchOutcome.failure msg => Except.error msg
  | FetchOutcome.success doc => buildMetadata url doc

/-- Model of `WebsiteScraper.scrape_metadata` (source lines 71-137).  The
`_delay` argument is the value of `random.uniform(1, 3)` slept at line 75,
which the rest of the body never uses.  The `except` handler catches any
exception from the `try` body, but its own `get_domain` call (line 124) can
raise, and that exception escapes. -/
def scrape_metadata (_delay : Nat) (url : String) (outcome : FetchOutcome) :
    Except String Record :=
  match tryScrape url outcome with
  | Except.ok r => Except.ok r
  | Except.error e =>
      match get_domain url with
      | Except.error e2 => Except.error e2
      | Except.ok dom => Except.ok (failRecord url dom e)

/-- The result-accumulation loop of `scrape_urls` (source lines 143-149):
each URL is scraped in order; an exception escaping `scrape_metadata`
aborts the loop. -/
def scrapeAll (fetch : String → FetchOutcome) (delays : Nat → Nat) :
    List String → Except String (List Record)
  | [] => Except.ok []
  | url :: rest =>
      match scrape_metadata (delays 0) url (fetch url) with
      | Except.error e => Except.error e
      | Except.ok r =>
          match scrapeAll fetch (fun i => delays (i + 1)) rest with
          | Except.error e => Except.error e
          | Except.ok rs => Except.ok (r :: rs)

/-- Cell of the output table: a string value, an integer value, or absent
(`None` becomes NaN in the DataFrame). -/
inductive Cell where
  | s (v : String)
  | n (v : Nat)
  | na
deriving DecidableEq, Repr

/-- Cell of an optional string field. -/
def optCell : Option String → Cell
  | none => Cell.na
  | some v => Cell.s v

/-- The value a record holds under a given column name. -/
def Record.cell (r : Record) : String → Cell
  | "url" => Cell.s r.url
  | "domain" => Cell.s r.domain
  | "page_title" => optCell r.page_title
  | "meta_title" => optCell r.meta_title
  | "meta_description" => optCell r.meta_description
  | "og_title" => optCell r.og_title
  | "og_description" => optCell r.og_description
  | "error" => optCell r.error
  | "h1_count" => Cell.n r.h1_count
  | "h1_text" => Cell.s r.h1_text
  | "h2_count" => Cell.n r.h2_count
  | "h2_text" => Cell.s r.h2_text
  | "h3_count" => Cell.n r.h3_count
  | "h3_text" => Cell.s r.h3_text
  | "h4_count" => Cell.n r.h4_count
  | "h4_text" => Cell.s r.h4_text
  | "h5_count" => Cell.n r.h5_count
  | "h5_text" => Cell.s r.h5_text
  | "h6_count" => Cell.n r.h6_count
  | "h6_text" => Cell.s r.h6_text
  | _ => Cell.na

/-- Key order of the metadata dict as built by `scrape_metadata` (both the
success and the failure path insert the keys in this order). -/
def recordKeys : List String :=
  ["url", "domain", "page_title", "meta_title", "meta_description",
   "og_title", "og_description", "error",
   "h1_count", "h1_text", "h2_count", "h2_text", "h3_count", "h3_text",
   "h4_count", "h4_text", "h5_count", "h5_text", "h6_count", "h6_text"]

/-- Output column order fixed at source lines 155-166: url, domain, the
five title/description fields, the six count/text pairs, then `error`. -/
def column_order : List String :=
  ["url", "domain", "page_title", "meta_title", "meta_description",
   "og_title", "og_description",
   "h1_count", "h1_text", "h2_count", "h2_text", "h3_count", "h3_text",
   "h4_count", "h4_text", "h5_count", "h5_text", "h6_count", "h6_text",
   "error"]

/-- A record flattened to one table row in output column order. -/
def toRow (r : Record) : List Cell :=
  column_order.map r.cell

/-- Column labels of `pd.DataFrame(results)`: the union of dict keys —
empty when the result list is empty, otherwise the 20 record keys. -/
def dataFrameColumns (recs : List Record) : List String :=
  if recs.isEmpty then [] else recordKeys

/-- The output DataFrame: a header row and one row of cells per record. -/
structure Table where
  header : List String
  rows : List (List Cell)
deriving DecidableEq, Repr

/-- Message of the `KeyError` raised by `df[column_order]` when requested
columns are missing from the frame. -/
def keyErrMsg : String :=
  "KeyError: none of the requested columns are in the DataFrame"

/-- Model of `WebsiteScraper.scrape_urls` (source lines 139-171): scrape
every URL in order, build the DataFrame and select `column_order` — which
raises a `KeyError` when the frame lacks the columns, as happens for the
empty URL list (the empty frame has no columns at all). -/
def scrape_urls (fetch : String → FetchOutcome) (delays : Nat → Nat)
    (urls : List String) : Except String Table :=
  match scrapeAll fetch delays urls with
  | Except.error e => Except.error e
  | Except.ok results =>
      if column_order.all (fun c => (dataFrameColumns results).contains c) then
        Except.ok { header := column_order, rows := results.map toRow }
      else
        Except.error keyErrMsg

/-- Cell lookup in a row of a table whose header is `column_order`. -/
def cellAt (row : List Cell) (name : String) : Cell :=
  row.getD (column_order.indexOf name) Cell.na

/-- Test for a NaN cell (`df[...].isna()`). -/
def isNaCell : Cell → Bool
  | Cell.na => true
  | _ => false

/-- Numeric value of a cell (count columns always hold `Cell.n`). -/
def cellNat : Cell → Nat
  | Cell.n v => v
  | _ => 0

/-- The summary block printed by `scrape_urls` (source lines 174-192):
totals, success/failure counts, and — only when at least one scrape
succeeded — per-level heading statistics over the successful rows. -/
structure Summary where
  total : Nat
  successful : Nat
  failed : Nat
  headingStats : Option (List (Nat × Nat))
deriving DecidableEq, Repr

/-- Model of the summary computation of `scrape_urls` (source lines
174-192), as a pure function of the assembled table:
`successful = len(df[df["error"].isna()])`,
`failed = len(df[df["error"].notna()])`, and for each level the total
heading count over successful rows and the number of successful rows with a
positive count. -/
def computeSummary (tbl : Table) : Summary :=
  let rows := tbl.rows
  let succRows := rows.filter (fun row => isNaCell (cellAt row "error"))
  { total := rows.length
  , successful := succRows.length
  , failed := (rows.filter (fun row => !isNaCell (cellAt row "error"))).length
  , headingStats :=
      if 0 < succRows.length then
        some ((List.range' 1 6).map (fun level =>
          ((succRows.map (fun row => cellNat (cellAt row (hTag level ++ "_count")))).sum,
           (rows.filter (fun row =>
             isNaCell (cellAt row "error") &&
               decide (0 < cellNat (cellAt row (hTag level ++ "_count"))))).length)))
      else none }

/-- Document with a `name=title` meta element whose `content` attribute is
the empty string. -/
def c2doc : Doc := [Node.elem "meta" [("name", "title"), ("content", "")] []]

/-- Document whose title element holds nested markup next to text, so its
`string` property is `None`. -/
def c10doc : Doc :=
  [Node.elem "html" []
    [Node.elem "head" []
      [Node.elem "title" []
        [Node.text "Breaking", Node.elem "b" [] [Node.text "News"]]]]]

/-- Document with an NBSP inside a heading text. -/
def c6doc : Doc := [Node.elem "h1" [] [Node.text "a\u00A0b"]]

/-- Document carrying both a primary `name=title` meta element and an
OpenGraph title. -/
def c1doc : Doc :=
  [Node.elem "head" []
    [Node.elem "meta" [("name", "title"), ("content", " Hello ")] [],
     Node.elem "meta" [("property", "og:title"), ("content", "OG Title")] []]]

/-- The record `buildMetadata` produces for `c1doc`. -/
def c1rec : Record :=
  { url := "https://a.test/page"
  , domain := "a.test"
  , page_title := none
  , meta_title := some "Hello"
  , meta_description := none
  , og_title := some "OG Title"
  , og_description := none
  , error := none
  , h1_count := 0, h1_text := ""
  , h2_count := 0, h2_text := ""
  , h3_count := 0, h3_text := ""
  , h4_count := 0, h4_text := ""
  , h5_count := 0, h5_text := ""
  , h6_count := 0, h6_text := "" }

/-- A URL that fetches successfully in the example batch. -/
def urlW1 : String := "https://a.test/page1"

/-- A URL whose fetch times out in the example batch. -/
def urlW2 : String := "https://dead.test/"

/-- Example document: a title with an NBSP, a meta description and two h1
headings. -/
def docW : Doc :=
  [Node.elem "html" []
    [Node.elem "head" []
      [Node.elem "title" [] [Node.text "Hi\u00A0There"],
       Node.elem "meta" [("name", "description"), ("content", "Desc 1")] []],
     Node.elem "body" []
      [Node.elem "h1" [] [Node.text "One"],
       Node.elem "h1" [] [Node.text "Two"]]]]

/-- Example fetch outcomes: `urlW1` succeeds with `docW`, everything else
times out. -/
def fetchW : String → FetchOutcome := fun u =>
  if u = urlW1 then FetchOutcome.success docW else FetchOutcome.failure "timeout"

/-- The record scraped for `urlW1` under `fetchW`. -/
def recW1 : Record :=
  { url := urlW1
  , domain := "a.test"
  , page_title := some "Hi There"
  , meta_title := none
  , meta_description := some "Desc 1"
  , og_title := none
  , og_description := none
  , error := none
  , h1_count := 2, h1_text := "One | Two"
  , h2_count := 0, h2_text := ""
  , h3_count := 0, h3_text := ""
  , h4_count := 0, h4_text := ""
  , h5_count := 0, h5_text := ""
  , h6_count := 0, h6_text := "" }

/-- The record scraped for `urlW2` under `fetchW`. -/
def recW2 : Record := failRecord urlW2 "dead.test" "timeout"

/-- The table `scrape_urls` assembles for the example batch. -/
def tblW : Table := { header := column_order, rows := [toRow recW1, toRow recW2] }

/-! ## General lemmas about the embedded operations -/

/-- The first element of a filtered list is the first element satisfying
the predicate. -/
theorem head?_filter_eq_find? {α : Type} (p : α → Bool) (l : List α) :
    (l.filter p).head? = l.find? p := by
  induction l with
  | nil => rfl
  | cons a t ih =>
      by_cases h : p a
      · simp [List.filter_cons_of_pos h, List.find?_cons_of_pos _ h]
      · simp [List.filter_cons_of_neg h, List.find?_cons_of_neg _ h, ih]

/-- Scheme removal only ever removes characters. -/
theorem dropSchemeL_sublist (cs : List Char) : List.Sublist (dropSchemeL cs) cs := by
  unfold dropSchemeL
  split
  · exact List.Sublist.refl _
  · split
    · exact List.drop_sublist _ _
    · exact List.Sublist.refl _

/-- All cleanup steps of `urlsplit` only remove characters. -/
theorem urlAfterScheme_sublist (url : String) :
    List.Sublist (urlAfterScheme url) url.data := by
  unfold urlAfterScheme
  exact (dropSchemeL_sublist _).trans
    ((List.filter_sublist _).trans (List.dropWhile_sublist _))

/-- A filter and its complement partition the length of a list. -/
theorem length_filter_add_length_filter_not {α : Type} (p : α → Bool) (l : List α) :
    (l.filter p).length + (l.filter (fun a => !p a)).length = l.length := by
  induction l with
  | nil => rfl
  | cons a t ih =>
      simp only [List.filter_cons]
      by_cases h : p a
      · rw [if_pos h, if_neg (by simp [h])]
        simp only [List.length_cons]
        omega
      · rw [if_neg h, if_pos (by simp [h])]
        simp only [List.length_cons]
        omega

/-- A record returned by `scrape_metadata` carries the URL it was asked to
scrape. -/
theorem scrape_metadata_ok_url {d : Nat} {url : String} {o : FetchOutcome} {r : Record}
    (h : scrape_metadata d url o = Except.ok r) : r.url = url := by
  unfold scrape_metadata at h
  split at h
  · rename_i r' heq
    injection h with h
    subst h
    unfold tryScrape at heq
    split at heq
    · exact Except.noConfusion heq
    · unfold buildMetadata at heq
      split at heq
      · exact Except.noConfusion heq
      · split at heq
        · exact Except.noConfusion heq
        · injection heq with heq
          subst heq
          rfl
  · split at h
    · exact Except.noConfusion h
    · injection h with h
      subst h
      rfl

/-- A successful scraping loop returns one record per URL, in input order:
the records list has the same length and lists the URLs in order. -/
theorem scrapeAll_ok (fetch : String → FetchOutcome) (delays : Nat → Nat)
    (urls : List String) (recs : List Record)
    (h : scrapeAll fetch delays urls = Except.ok recs) :
    recs.length = urls.length ∧ recs.map (fun r => r.url) = urls := by
  induction urls generalizing delays recs with
  | nil =>
      unfold scrapeAll at h
      injection h with h
      subst h
      exact ⟨rfl, rfl⟩
  | cons u rest ih =>
      unfold scrapeAll at h
      split at h
      · exact Except.noConfusion h
      · rename_i r heq
        split at h
        · exact Except.noConfusion h
        · rename_i rs heq2
          injection h with h
          subst h
          obtain ⟨hl, hm⟩ := ih (fun i => delays (i + 1)) rs heq2
          refine ⟨by simp [hl], ?_⟩
          simp [hm, scrape_metadata_ok_url heq]

/-- Each meta lookup of `get_meta_tags` equals the content attribute
(defaulted to the empty string and stripped) of the first matching element
in document order. -/
theorem metaLookup_eq_find? (doc : Doc) (attr val : String) :
    metaLookup doc attr val =
      ((flattenList doc).find? (metaAttrMatch "meta" attr val)).map
        (fun nd => pyStrip (getAttrD nd "content" "")) := by
  unfold metaLookup soupFindAttr
  rw [head?_filter_eq_find?]
  cases h : (flattenList doc).find? (metaAttrMatch "meta" attr val) <;> simp [h]

/-! ## Claims -/

/-- C9: calling `scrape_urls` on the empty URL list raises during table
assembly — the empty DataFrame has no columns, so selecting the fixed
column list fails with a `KeyError` — instead of returning an empty table
with the 20 headers. -/
theorem c9_empty_url_list_raises (fetch : String → FetchOutcome) (delays : Nat → Nat) :
    scrape_urls fetch delays [] = Except.error keyErrMsg := rfl

/-- Inter-request delays never influence the scraped record list. -/
theorem scrapeAll_delays_eq (fetch : String → FetchOutcome) (urls : List String)
    (d1 d2 : Nat → Nat) :
    scrapeAll fetch d1 urls = scrapeAll fetch d2 urls := by
  induction urls generalizing d1 d2 with
  | nil => rfl
  | cons u rest ih =>
      show scrapeAll fetch d1 (u :: rest) = scrapeAll fetch d2 (u :: rest)
      unfold scrapeAll
      have hm : scrape_metadata (d1 0) u (fetch u) = scrape_metadata (d2 0) u (fetch u) := rfl
      rw [hm, ih (fun i => d1 (i + 1)) (fun i => d2 (i + 1))]

/-- C8: two runs of the batch over the same URLs with the same fetch
outcomes produce identical results whatever the randomized inter-request
delays are — the output depends only on the URLs and the fetched
responses. -/
theorem c8_delay_independence (fetch : String → FetchOutcome) (d1 d2 : Nat → Nat)
    (urls : List String) :
    scrape_urls fetch d1 urls = scrape_urls fetch d2 urls := by
  unfold scrape_urls
  rw [scrapeAll_delays_eq fetch urls d1 d2]

/-- C2 counterexample: a present `name=title` meta element with an empty
`content` attribute yields the empty string, not an absent value — the
claim says an empty content attribute yields an absent value. -/
theorem c2_counterexample :
    (get_meta_tags c2doc).meta_title = some "" ∧
      ¬(get_meta_tags c2doc).meta_title = none :=
  ⟨rfl, by decide⟩

/-- C2 amended: each of the four meta lookups takes the first matching
element in document order and yields its stripped `content` attribute
(defaulted to the empty string); only an absent element yields an absent
value, while an absent or empty `content` attribute on a present element
yields the empty string. -/
theorem c2_first_match_lookup (doc : Doc) :
    (get_meta_tags doc).meta_title =
        ((flattenList doc).find? (metaAttrMatch "meta" "name" "title")).map
          (fun nd => pyStrip (getAttrD nd "content" "")) ∧
    (get_meta_tags doc).meta_description =
        ((flattenList doc).find? (metaAttrMatch "meta" "name" "description")).map
          (fun nd => pyStrip (getAttrD nd "content" "")) ∧
    (get_meta_tags doc).og_title =
        ((flattenList doc).find? (metaAttrMatch "meta" "property" "og:title")).map
          (fun nd => pyStrip (getAttrD nd "content" "")) ∧
    (get_meta_tags doc).og_description =
        ((flattenList doc).find? (metaAttrMatch "meta" "property" "og:description")).map
          (fun nd => pyStrip (getAttrD nd "content" "")) :=
  ⟨metaLookup_eq_find? doc "name" "title", metaLookup_eq_find? doc "name" "description",
   metaLookup_eq_find? doc "property" "og:title",
   metaLookup_eq_find? doc "property" "og:description"⟩

/-- C5 counterexample: `get_domain` raises `ValueError` on a mismatched
square bracket, on a netloc that NFKC-normalizes onto URL delimiters, and
on a matched bracket pair that is not an IPv6/IPvFuture host — so it is
not total and does not degrade to an empty string on unparseable URLs. -/
theorem c5_counterexample :
    get_domain "http://[x" = Except.error "Invalid IPv6 URL" ∧
      get_domain "http://\u2100" = Except.error nfkcErrMsg ∧
      get_domain "http://[x]" =
        Except.error "bracketed host does not appear to be an IPv4 or IPv6 address" :=
  ⟨by decide, by decide, by decide⟩

/-- On an all-ASCII, bracket-free netloc every validation of `urlsplit`
passes: the bracket branches are skipped and `_checknetloc` returns via
its `isascii` shortcut. -/
theorem netlocChecks_ascii (netloc : List Char) (h : ∀ c ∈ netloc, c.toNat ≤ 127)
    (h1 : '[' ∉ netloc) (h2 : ']' ∉ netloc) :
    netlocChecks netloc = Except.ok ⟨netloc⟩ := by
  unfold netlocChecks
  rw [if_neg (by rintro (⟨hin, _⟩ | ⟨hin, _⟩); exacts [h1 hin, h2 hin])]
  rw [if_neg (fun hboth => h1 hboth.1)]
  show (if checkNetloc netloc then Except.ok (String.mk netloc)
    else Except.error nfkcErrMsg) = _
  have hall : netloc.all pyIsAscii = true :=
    List.all_eq_true.mpr (fun c hc => by simpa [pyIsAscii] using h c hc)
  have hcn : checkNetloc netloc = true := by
    unfold checkNetloc
    rw [if_pos hall]
  rw [if_pos hcn]

/-- C5 amended: on every ASCII URL without square brackets, `get_domain`
returns normally (the host portion with scheme and path stripped, or the
empty string when the URL has no authority); it raises `ValueError` on a
mismatched bracket, on a bracketed host that is not a valid IPv6 or
IPvFuture address, and on a netloc whose characters NFKC-normalize onto
URL delimiters. -/
theorem c5_ascii_no_bracket_no_raise (url : String)
    (hascii : ∀ c ∈ url.data, c.toNat ≤ 127)
    (h1 : '[' ∉ url.data) (h2 : ']' ∉ url.data) :
    ∃ d, get_domain url = Except.ok d := by
  unfold get_domain
  split
  · rename_i rest heq
    have hsub : rest.takeWhile notNetlocEnd ⊆ url.data := by
      have s1 : List.Sublist (rest.takeWhile notNetlocEnd) rest :=
        List.takeWhile_sublist _
      have s2 : List.Sublist rest (urlAfterScheme url) := by
        rw [heq]
        exact (List.sublist_cons_self _ _).trans (List.sublist_cons_self _ _)
      exact ((s1.trans s2).trans (urlAfterScheme_sublist url)).subset
    exact ⟨_, netlocChecks_ascii _ (fun c hc => hascii c (hsub hc))
      (fun hin => h1 (hsub hin)) (fun hin => h2 (hsub hin))⟩
  · exact ⟨"", rfl⟩

/-- Witness for C5 amended: a bracket-free ASCII URL, with the hypotheses
checked concretely. -/
theorem c5_ascii_no_bracket_no_raise_witness :
    (∀ c ∈ ("https://example.com/path").data, c.toNat ≤ 127) ∧
      ∃ d, get_domain "https://example.com/path" = Except.ok d :=
  ⟨by decide, c5_ascii_no_bracket_no_raise "https://example.com/path"
    (by decide) (by decide) (by decide)⟩

/-- C10: on a successfully fetched document whose title element has no
direct string content (`Tag.string` is `None`), the title access raises an
`AttributeError` that is caught by the failure path, so `scrape_metadata`
returns the failure-shaped record — error populated, optional fields
absent, heading counts 0 — not a success record with `page_title` absent. -/
theorem c10_nested_title_failure (delay : Nat) (url : String) (doc : Doc)
    (dom : String) (t : Node)
    (ht : soupFind doc "title" = some t) (hs : Node.pyString t = none)
    (hd : get_domain url = Except.ok dom) :
    scrape_metadata delay url (FetchOutcome.success doc) =
      Except.ok (failRecord url dom attrErrMsg) := by
  have hp : computePageTitle doc = Except.error attrErrMsg := by
    simp only [computePageTitle, ht, hs]
  have hb : buildMetadata url doc = Except.error attrErrMsg := by
    simp only [buildMetadata, hd, hp]
  simp only [scrape_metadata, tryScrape, hb, hd]

/-- Witness for C10 at a concrete document with `<title>Breaking<b>News</b></title>`. -/
theorem c10_nested_title_failure_witness :
    scrape_metadata 0 "https://b.test/news" (FetchOutcome.success c10doc) =
      Except.ok (failRecord "https://b.test/news" "b.test" attrErrMsg) :=
  c10_nested_title_failure 0 "https://b.test/news" c10doc "b.test"
    (Node.elem "title" [] [Node.text "Breaking", Node.elem "b" [] [Node.text "News"]])
    rfl rfl rfl

/-- C3 counterexample: for the URL `http://[x` the fetch fails, but instead
of producing a record the failure path itself raises (its `get_domain`
call hits the mismatched bracket), and the exception aborts the whole
batch. -/
theorem c3_counterexample :
    scrape_metadata 0 "http://[x" (FetchOutcome.failure "timeout") =
        Except.error "Invalid IPv6 URL" ∧
      scrape_urls (fun _ => FetchOutcome.failure "timeout") (fun _ => 0) ["http://[x"] =
        Except.error "Invalid IPv6 URL" :=
  ⟨rfl, rfl⟩

/-- C3 amended: for every URL on which `get_domain` returns normally, a
failed fetch yields the failure record — domain still computed, every
optional field absent, every heading count 0 and text empty, `error`
populated — and the batch continues with the remaining URLs. -/
theorem c3_failure_record_and_continue (fetch : String → FetchOutcome)
    (delays : Nat → Nat) (url msg dom : String) (rest : List String)
    (hdom : get_domain url = Except.ok dom)
    (hf : fetch url = FetchOutcome.failure msg) :
    scrape_metadata (delays 0) url (fetch url) = Except.ok (failRecord url dom msg) ∧
      scrapeAll fetch delays (url :: rest) =
        Except.map (fun rs => failRecord url dom msg :: rs)
          (scrapeAll fetch (fun i => delays (i + 1)) rest) := by
  have h1 : scrape_metadata (delays 0) url (fetch url) =
      Except.ok (failRecord url dom msg) := by
    simp only [scrape_metadata, tryScrape, hf, hdom]
  refine ⟨h1, ?_⟩
  simp only [scrapeAll]
  rw [h1]
  cases h2 : scrapeAll fetch (fun i => delays (i + 1)) rest <;> simp [h2, Except.map]

/-- Witness for C3 amended at a concrete dead URL. -/
theorem c3_failure_record_witness :
    scrape_metadata 0 "https://dead.test/" (FetchOutcome.failure "timeout") =
      Except.ok (failRecord "https://dead.test/" "dead.test" "timeout") :=
  (c3_failure_record_and_continue (fun _ => FetchOutcome.failure "timeout") (fun _ => 0)
    "https://dead.test/" "timeout" "dead.test" [] rfl rfl).1

/-- C1: in a successfully built record, a present and non-empty
(whitespace-trimmed) `name=title` meta content becomes `meta_title`
verbatim regardless of any OpenGraph title, and with the primary meta
element absent `meta_title` equals the OpenGraph title value; the same
fallback holds for `meta_description` and the OpenGraph description. -/
theorem c1_meta_fallback_precedence (url : String) (doc : Doc) (r : Record)
    (hr : buildMetadata url doc = Except.ok r) :
    (∀ t, metaLookup doc "name" "title" = some t → t ≠ "" → r.meta_title = some t) ∧
      (metaLookup doc "name" "title" = none → r.meta_title = r.og_title) ∧
      (∀ t, metaLookup doc "name" "description" = some t → t ≠ "" →
        r.meta_description = some t) ∧
      (metaLookup doc "name" "description" = none →
        r.meta_description = r.og_description) := by
  unfold buildMetadata at hr
  split at hr
  · exact Except.noConfusion hr
  · split at hr
    · exact Except.noConfusion hr
    · injection hr with hr
      subst hr
      refine ⟨?_, ?_, ?_, ?_⟩
      · intro t ht hne
        show pyOrStr (get_meta_tags doc).meta_title (get_meta_tags doc).og_title = some t
        rw [show (get_meta_tags doc).meta_title = metaLookup doc "name" "title" from rfl, ht]
        show (if t.isEmpty then (get_meta_tags doc).og_title else some t) = some t
        rw [if_neg (by simpa [String.isEmpty_iff] using hne)]
      · intro ht
        show pyOrStr (get_meta_tags doc).meta_title (get_meta_tags doc).og_title =
          (get_meta_tags doc).og_title
        rw [show (get_meta_tags doc).meta_title = metaLookup doc "name" "title" from rfl, ht]
        rfl
      · intro t ht hne
        show pyOrStr (get_meta_tags doc).meta_description
          (get_meta_tags doc).og_description = some t
        rw [show (get_meta_tags doc).meta_description =
          metaLookup doc "name" "description" from rfl, ht]
        show (if t.isEmpty then (get_meta_tags doc).og_description else some t) = some t
        rw [if_neg (by simpa [String.isEmpty_iff] using hne)]
      · intro ht
        show pyOrStr (get_meta_tags doc).meta_description
          (get_meta_tags doc).og_description = (get_meta_tags doc).og_description
        rw [show (get_meta_tags doc).meta_description =
          metaLookup doc "name" "description" from rfl, ht]
        rfl

/-- Witness for C1: a document holding both a primary meta title and an
OpenGraph title keeps the primary value. -/
theorem c1_meta_fallback_precedence_witness :
    Record.og_title c1rec = some "OG Title" ∧ Record.meta_title c1rec = some "Hello" :=
  ⟨rfl, (c1_meta_fallback_precedence "https://a.test/page" c1doc c1rec rfl).1
    "Hello" rfl (by decide)⟩

/-- C4 counterexample: on the empty URL list no table is produced at all —
the column selection on the empty DataFrame raises. -/
theorem c4_counterexample :
    scrape_urls (fun _ => FetchOutcome.failure "x") (fun _ => 0) [] =
      Except.error keyErrMsg := rfl

/-- C4 amended: whenever `scrape_urls` returns a table (which requires a
non-empty URL list and no escaping exception), that table has the 20 fixed
columns in order and exactly one row per input URL in input order, for
successes and failures alike. -/
theorem c4_uniform_table (fetch : String → FetchOutcome) (delays : Nat → Nat)
    (urls : List String) (tbl : Table)
    (h : scrape_urls fetch delays urls = Except.ok tbl) :
    tbl.header = column_order ∧ column_order.length = 20 ∧
      tbl.rows.length = urls.length ∧
      (∀ row ∈ tbl.rows, row.length = 20) ∧
      tbl.rows.map (fun row => cellAt row "url") = urls.map Cell.s := by
  unfold scrape_urls at h
  split at h
  · exact Except.noConfusion h
  · rename_i recs heq
    split at h
    · injection h with h
      subst h
      obtain ⟨hl, hm⟩ := scrapeAll_ok fetch delays urls recs heq
      refine ⟨rfl, rfl, ?_, ?_, ?_⟩
      · show (recs.map toRow).length = urls.length
        rw [List.length_map]
        exact hl
      · intro row hrow
        rcases List.mem_map.mp hrow with ⟨r, _, hrr⟩
        subst hrr
        show (column_order.map r.cell).length = 20
        rw [List.length_map]
        rfl
      · show (recs.map toRow).map (fun row => cellAt row "url") = urls.map Cell.s
        calc (recs.map toRow).map (fun row => cellAt row "url")
            = recs.map (fun r => cellAt (toRow r) "url") := by rw [List.map_map]; rfl
          _ = (recs.map (fun r => r.url)).map Cell.s := by rw [List.map_map]; rfl
          _ = urls.map Cell.s := by rw [hm]
    · exact Except.noConfusion h

/-- Witness for C4 on a two-URL batch with one success and one failure. -/
theorem c4_uniform_table_witness :
    tblW.rows.length = 2 ∧
      tblW.rows.map (fun row => cellAt row "url") = [urlW1, urlW2].map Cell.s := by
  have h : scrape_urls fetchW (fun _ => 0) [urlW1, urlW2] = Except.ok tblW := by rfl
  have hc := c4_uniform_table fetchW (fun _ => 0) [urlW1, urlW2] tblW h
  exact ⟨hc.2.2.1, hc.2.2.2.2⟩

/-- C6 counterexample: `get_all_headings` keeps an internal no-break space
in a heading text — the per-level extractor output is stripped but not
NBSP-normalized, normalization only happens when `h{n}_text` is joined. -/
theorem c6_counterexample :
    (get_all_headings c6doc).lookup "h1" = some ["a\u00A0b"] ∧
      ¬(get_all_headings c6doc).lookup "h1" = some ["a b"] :=
  ⟨rfl, by decide⟩

/-- C6 amended: for every level 1-6 the extractor output is present and
lists the `get_text(strip=True)` of every `h{level}` element in document
order (leading/trailing whitespace including NBSP stripped, internal NBSP
preserved); the record has `h{n}_count` equal to the number of matching
elements and `h{n}_text` equal to the texts NBSP-normalized, re-stripped
and joined with `" | "` (empty string when the count is 0). -/
theorem c6_heading_extraction (url : String) (doc : Doc) (r : Record) (level : Nat)
    (h1 : 1 ≤ level) (h2 : level ≤ 6)
    (hr : buildMetadata url doc = Except.ok r) :
    (get_all_headings doc).lookup (hTag level) =
        some ((soupFindAll doc (hTag level)).map Node.getTextStrip) ∧
      Record.hCount r level = (soupFindAll doc (hTag level)).length ∧
      Record.hText r level =
        headingTextJoin ((soupFindAll doc (hTag level)).map Node.getTextStrip) := by
  unfold buildMetadata at hr
  split at hr
  · exact Except.noConfusion hr
  · split at hr
    · exact Except.noConfusion hr
    · injection hr with hr
      subst hr
      interval_cases level <;> exact ⟨rfl, List.length_map _ _, rfl⟩

/-- Witness for C6 at level 1 of the example document with two h1
headings. -/
theorem c6_heading_extraction_witness :
    (get_all_headings docW).lookup (hTag 1) =
        some ((soupFindAll docW (hTag 1)).map Node.getTextStrip) ∧
      Record.hCount recW1 1 = (soupFindAll docW (hTag 1)).length ∧
      Record.hText recW1 1 =
        headingTextJoin ((soupFindAll docW (hTag 1)).map Node.getTextStrip) :=
  c6_heading_extraction urlW1 docW recW1 1 (by decide) (by decide) rfl

/-- Filtering rows on a NaN error cell is filtering records on an absent
error. -/
theorem filter_toRow_error (recs : List Record) :
    (recs.map toRow).filter (fun row => isNaCell (cellAt row "error")) =
      (recs.filter (fun r => r.error.isNone)).map toRow := by
  rw [List.filter_map]
  congr 1
  apply List.filter_congr
  intro r _
  show isNaCell (optCell r.error) = r.error.isNone
  cases r.error <;> rfl

/-- Filtering rows on a non-NaN error cell is filtering records on a
present error. -/
theorem filter_toRow_error_not (recs : List Record) :
    (recs.map toRow).filter (fun row => !isNaCell (cellAt row "error")) =
      (recs.filter (fun r => r.error.isSome)).map toRow := by
  rw [List.filter_map]
  congr 1
  apply List.filter_congr
  intro r _
  show (!isNaCell (optCell r.error)) = r.error.isSome
  cases r.error <;> rfl

/-- Summing a count column over the successful rows equals summing the
record field over the successful records. -/
theorem sum_count_col (recs : List Record) (name : String) (sel : Record → Nat)
    (hc : ∀ r : Record, cellAt (toRow r) name = Cell.n (sel r)) :
    (((recs.filter (fun r => r.error.isNone)).map toRow).map
        (fun row => cellNat (cellAt row name))).sum =
      ((recs.filter (fun r => r.error.isNone)).map sel).sum := by
  rw [List.map_map]
  congr 1
  apply List.map_congr_left
  intro r _
  show cellNat (cellAt (toRow r) name) = sel r
  rw [hc r]
  rfl

/-- Counting rows that are successful and have a positive count cell
equals counting such records. -/
theorem count_pos_col (recs : List Record) (name : String) (sel : Record → Nat)
    (hc : ∀ r : Record, cellAt (toRow r) name = Cell.n (sel r)) :
    ((recs.map toRow).filter (fun row =>
        isNaCell (cellAt row "error") && decide (0 < cellNat (cellAt row name)))).length =
      (recs.filter (fun r => r.error.isNone && decide (0 < sel r))).length := by
  rw [List.filter_map, List.length_map]
  congr 1
  apply List.filter_congr
  intro r _
  show (isNaCell (optCell r.error) && decide (0 < cellNat (cellAt (toRow r) name))) =
    (r.error.isNone && decide (0 < sel r))
  rw [hc r]
  cases r.error <;> rfl

/-- C7: the reported summary over the assembled table equals the counts of
the record list — total is the URL count, success and failure count the
records with absent and present error (partitioning the total), and the
per-level heading statistics (printed when at least one scrape succeeded)
are the sum of counts and the number of pages with a positive count,
computed over the successful records only. -/
theorem c7_summary_statistics (fetch : String → FetchOutcome) (delays : Nat → Nat)
    (urls : List String) (recs : List Record) (tbl : Table)
    (hrecs : scrapeAll fetch delays urls = Except.ok recs)
    (htbl : scrape_urls fetch delays urls = Except.ok tbl) :
    (computeSummary tbl).total = urls.length ∧
      (computeSummary tbl).successful = (recs.filter (fun r => r.error.isNone)).length ∧
      (computeSummary tbl).failed = (recs.filter (fun r => r.error.isSome)).length ∧
      (computeSummary tbl).successful + (computeSummary tbl).failed =
        (computeSummary tbl).total ∧
      (0 < (computeSummary tbl).successful →
        (computeSummary tbl).headingStats =
          some ((List.range' 1 6).map (fun level =>
            (((recs.filter (fun r => r.error.isNone)).map
                (fun r => Record.hCount r level)).sum,
             (recs.filter (fun r =>
                r.error.isNone && decide (0 < Record.hCount r level))).length)))) := by
  unfold scrape_urls at htbl
  split at htbl
  · exact Except.noConfusion htbl
  · rename_i recs' heq
    have hr2 : recs' = recs := Except.ok.inj (heq.symm.trans hrecs)
    split at htbl
    · injection htbl with htbl
      subst htbl
      rw [hr2]
      refine ⟨?_, ?_, ?_, ?_, ?_⟩
      · show (recs.map toRow).length = urls.length
        rw [List.length_map]
        exact (scrapeAll_ok fetch delays urls recs hrecs).1
      · show ((recs.map toRow).filter (fun row => isNaCell (cellAt row "error"))).length =
          (recs.filter (fun r => r.error.isNone)).length
        rw [filter_toRow_error, List.length_map]
      · show ((recs.map toRow).filter (fun row => !isNaCell (cellAt row "error"))).length =
          (recs.filter (fun r => r.error.isSome)).length
        rw [filter_toRow_error_not, List.length_map]
      · exact length_filter_add_length_filter_not
          (fun row => isNaCell (cellAt row "error")) (recs.map toRow)
      · intro hpos
        show (if 0 < ((recs.map toRow).filter
              (fun row => isNaCell (cellAt row "error"))).length then
            some ((List.range' 1 6).map (fun level =>
              ((((recs.map toRow).filter (fun row => isNaCell (cellAt row "error"))).map
                  (fun row => cellNat (cellAt row (hTag level ++ "_count")))).sum,
               ((recs.map toRow).filter (fun row =>
                 isNaCell (cellAt row "error") &&
                   decide (0 < cellNat (cellAt row (hTag level ++ "_count"))))).length)))
          else none) = _
        have hpos2 : 0 < ((recs.map toRow).filter
            (fun row => isNaCell (cellAt row "error"))).length := hpos
        rw [if_pos hpos2, filter_toRow_error]
        refine congrArg some (List.map_congr_left ?_)
        intro level hlevel
        rw [show List.range' 1 6 = [1, 2, 3, 4, 5, 6] from rfl] at hlevel
        fin_cases hlevel
        · exact congrArg₂ Prod.mk
            (sum_count_col recs (hTag 1 ++ "_count") (fun r => Record.hCount r 1)
              (fun r => rfl))
            (count_pos_col recs (hTag 1 ++ "_count") (fun r => Record.hCount r 1)
              (fun r => rfl))
        · exact congrArg₂ Prod.mk
            (sum_count_col recs (hTag 2 ++ "_count") (fun r => Record.hCount r 2)
              (fun r => rfl))
            (count_pos_col recs (hTag 2 ++ "_count") (fun r => Record.hCount r 2)
              (fun r => rfl))
        · exact congrArg₂ Prod.mk
            (sum_count_col recs (hTag 3 ++ "_count") (fun r => Record.hCount r 3)
              (fun r => rfl))
            (count_pos_col recs (hTag 3 ++ "_count") (fun r => Record.hCount r 3)
              (fun r => rfl))
        · exact congrArg₂ Prod.mk
            (sum_count_col recs (hTag 4 ++ "_count") (fun r => Record.hCount r 4)
              (fun r => rfl))
            (count_pos_col recs (hTag 4 ++ "_count") (fun r => Record.hCount r 4)
              (fun r => rfl))
        · exact congrArg₂ Prod.mk
            (sum_count_col recs (hTag 5 ++ "_count") (fun r => Record.hCount r 5)
              (fun r => rfl))
            (count_pos_col recs (hTag 5 ++ "_count") (fun r => Record.hCount r 5)
              (fun r => rfl))
        · exact congrArg₂ Prod.mk
            (sum_count_col recs (hTag 6 ++ "_count") (fun r => Record.hCount r 6)
              (fun r => rfl))
            (count_pos_col recs (hTag 6 ++ "_count") (fun r => Record.hCount r 6)
              (fun r => rfl))
    · exact Except.noConfusion htbl

/-- Witness for C7 on the two-URL example batch: one success, one
failure. -/
theorem c7_summary_statistics_witness :
    (computeSummary tblW).total = 2 ∧ (computeSummary tblW).successful = 1 ∧
      (computeSummary tblW).failed = 1 := by
  have hrecs : scrapeAll fetchW (fun _ => 0) [urlW1, urlW2] =
      Except.ok [recW1, recW2] := rfl
  have htbl : scrape_urls fetchW (fun _ => 0) [urlW1, urlW2] = Except.ok tblW := rfl
  have hc := c7_summary_statistics fetchW (fun _ => 0) [urlW1, urlW2]
    [recW1, recW2] tblW hrecs htbl
  refine ⟨hc.1, ?_, ?_⟩
  · rw [hc.2.1]
    rfl
  · rw [hc.2.2.1]
    rfl
